import Mathlib

/-!
# A shallow embedding of the Ecommerce API service (src/main.py)

The service is a Flask + SQLAlchemy + Marshmallow CRUD application over three
relational tables (customer, products, orders) and one association table
(order_products) with a composite primary key on (order_id, product_id).

The embedding below models:

* one record type per table row, with the declared columns;
* the whole database as a `DBState` (the four tables plus the autoincrement
  counters of the three surrogate keys; MySQL autoincrement starts at 1);
* the Marshmallow schema loads as total functions from an untyped payload
  (optional fields) to either the validated field record the handler then
  reads, or the field-to-messages error mapping that the handler returns
  with HTTP 400;
* every route handler of src/main.py as a function from the pre-state and the
  request data to a pair of an `Outcome` and the post-state.  An `Outcome` is
  either an HTTP response produced by the handler itself, or `Outcome.exn`:
  an exception the handler does not catch (a storage constraint violation on
  commit, or a missing-key lookup on the loaded record), which Flask would
  turn into a 500 response outside of the handler code.

Database writes go through `db.session.add` / `delete` / `commit`; a commit
that violates a declared constraint (the unique email column, the not-null
foreign key of orders.customer_id) rolls the transaction back, so the `exn`
outcomes carry the unchanged pre-state.
-/

/-- A parsed calendar date, the value stored in the orders.order_date column.
The external representation accepted by the deployed order schema is the
ISO-8601 date form YYYY-MM-DD: the order schema source (src/main.py lines
99-110) declares a custom date field with format MM.DD.YYYY and two custom
error messages, but that declaration sits inside class Meta, and Marshmallow
collects declared fields only from the schema class body while ignoring
unknown Meta attributes, so the schema in effect is the one auto-generated
from the date column: a required date field with the default ISO format and
the default error messages. -/
structure MDY where
  month : Nat
  day : Nat
  year : Nat
deriving Repr, DecidableEq

/-- Gregorian leap-year rule, as used by the Python datetime module. -/
def isLeapYear (y : Nat) : Bool :=
  (y % 4 == 0 && y % 100 != 0) || y % 400 == 0

/-- Number of days of month `m` in year `y` (months counted 1..12). -/
def daysInMonth (y m : Nat) : Nat :=
  if m == 2 then (if isLeapYear y then 29 else 28)
  else if m == 4 || m == 6 || m == 9 || m == 11 then 30
  else 31

/-- Split a character list at every occurrence of `sep`, keeping empty
fields. -/
def splitSep (sep : Char) : List Char → List (List Char)
  | [] => [[]]
  | ch :: cs =>
    if ch == sep then [] :: splitSep sep cs
    else
      match splitSep sep cs with
      | g :: gs => (ch :: g) :: gs
      | [] => [[ch]]

/-- True when `cs` is a nonempty list of decimal digits. -/
def allDigits (cs : List Char) : Bool :=
  !cs.isEmpty && cs.all Char.isDigit

/-- The number denoted by a list of decimal digits. -/
def digitsToNat (cs : List Char) : Nat :=
  cs.foldl (fun acc ch => acc * 10 + (ch.toNat - 48)) 0

/-- Model of the ISO date parsing performed by the auto-generated date field
of the deployed order schema (the Python date.fromisoformat used by the
default iso format of Marshmallow): a 4-digit year, a 2-digit month and a
2-digit day separated by dashes, the whole string consumed, the month in
1..12, the day valid for the month and year, and the year at least 1 (the
datetime range check).  `none` models the parse failure raised on any other
input; in particular the MM.DD.YYYY string 01.15.2024 does not parse, while
2024-01-01 does. -/
def parseDateISO (str : String) : Option MDY :=
  match splitSep '-' str.toList with
  | [ys, ms, ds] =>
    if allDigits ys && allDigits ms && allDigits ds
        && ys.length == 4 && ms.length == 2 && ds.length == 2 then
      let y := digitsToNat ys
      let m := digitsToNat ms
      let d := digitsToNat ds
      if 1 ≤ y && 1 ≤ m && m ≤ 12 && 1 ≤ d && d ≤ daysInMonth y m then
        some ⟨m, d, y⟩
      else none
    else none
  | _ => none

/-- One row of the customer table (class Customer, src/main.py lines 39-46):
surrogate primary key, required name and email, optional (nullable) address;
the email column is declared unique. -/
structure Customer where
  id : Nat
  name : String
  email : String
  address : Option String
deriving Repr, DecidableEq

/-- One row of the products table (class Products, src/main.py lines 52-59):
surrogate primary key, required product_name and price.  The price column is
a database float; it is modelled as a rational number, which is faithful for
every exactly-representable value and is never computed with below. -/
structure Products where
  id : Nat
  product_name : String
  price : Rat
deriving Repr, DecidableEq

/-- One row of the orders table (class Orders, src/main.py lines 71-78):
surrogate primary key, required order_date, required (not-null) foreign key
customer_id referencing the customer table. -/
structure Orders where
  id : Nat
  order_date : MDY
  customer_id : Nat
deriving Repr, DecidableEq

/-- The whole relational store: the three entity tables, the order_products
association table (src/main.py lines 63-68) as a list of
(order_id, product_id) pairs whose composite primary key forbids duplicate
pairs, and the autoincrement counter of each surrogate key. -/
structure DBState where
  customers : List Customer
  products : List Products
  orders : List Orders
  order_products : List (Nat × Nat)
  next_customer_id : Nat
  next_product_id : Nat
  next_order_id : Nat
deriving Repr, DecidableEq

/-- The store of a freshly created database: empty tables, counters at 1. -/
def emptyState : DBState :=
  { customers := [], products := [], orders := [], order_products := []
    next_customer_id := 1, next_product_id := 1, next_order_id := 1 }

/-- The JSON body of a request to the customer endpoints: each schema field
is present or absent. -/
structure CustomerPayload where
  name : Option String
  email : Option String
  address : Option String
deriving Repr, DecidableEq

/-- The JSON body of a request to the product endpoints. -/
structure ProductPayload where
  product_name : Option String
  price : Option Rat
deriving Repr, DecidableEq

/-- The JSON body of a request to the order-creation endpoint (the order
schema has include_fk, so customer_id is a load field). -/
structure OrderPayload where
  order_date : Option String
  customer_id : Option Nat
deriving Repr, DecidableEq

/-- The JSON body of a response, one constructor per body shape produced by
the handlers of src/main.py. -/
inductive Body where
  /-- A bare success message object. -/
  | message (m : String)
  /-- A success message together with the serialized customer. -/
  | messageCustomer (m : String) (c : Customer)
  /-- A success message together with the serialized product. -/
  | messageProduct (m : String) (p : Products)
  /-- A success message together with the serialized order. -/
  | messageOrder (m : String) (o : Orders)
  /-- A single error-string object. -/
  | err (e : String)
  /-- A Marshmallow field-to-messages error mapping. -/
  | fieldErrors (errs : List (String × List String))
  /-- A serialized customer. -/
  | customer (c : Customer)
  /-- A serialized list of customers. -/
  | customerList (cs : List Customer)
  /-- A serialized product. -/
  | product (p : Products)
  /-- A serialized list of products. -/
  | productList (ps : List Products)
  /-- A serialized order. -/
  | order (o : Orders)
  /-- A serialized list of orders. -/
  | orderList (os : List Orders)
deriving Repr, DecidableEq

/-- An HTTP response: status code and JSON body. -/
structure HttpResp where
  status : Nat
  body : Body
deriving Repr, DecidableEq

/-- What an invocation of a handler produces: either the HTTP response the
handler returns itself, or an exception the handler does not catch (which
the framework turns into a 500 outside the handler). -/
inductive Outcome where
  /-- The handler returned this response. -/
  | resp (r : HttpResp)
  /-- The handler raised: the string names the uncaught Python exception. -/
  | exn (msg : String)
deriving Repr, DecidableEq

/-- The standard Marshmallow message for an absent required field. -/
def missingMsg : String := "Missing data for required field."

/-- Load of the customer schema: name and email are required (not-null
columns), address is optional (nullable column).  On success the loaded
record holds exactly the fields present in the payload: the optional address
is `none` when it was absent. -/
def customer_load (p : CustomerPayload) :
    Except (List (String × List String)) (String × String × Option String) :=
  match p.name, p.email with
  | some n, some e => Except.ok (n, e, p.address)
  | none, some _ => Except.error [("name", [missingMsg])]
  | some _, none => Except.error [("email", [missingMsg])]
  | none, none => Except.error [("name", [missingMsg]), ("email", [missingMsg])]

/-- Load of the product schema: product_name and price are required. -/
def product_load (p : ProductPayload) :
    Except (List (String × List String)) (String × Rat) :=
  match p.product_name, p.price with
  | some n, some pr => Except.ok (n, pr)
  | none, some _ => Except.error [("product_name", [missingMsg])]
  | some _, none => Except.error [("price", [missingMsg])]
  | none, none => Except.error [("product_name", [missingMsg]), ("price", [missingMsg])]

/-- Load of the order schema as deployed (src/main.py lines 99-110): the
custom order_date field with format MM.DD.YYYY and the custom messages
"Order date is required." and "Invalid date format. Please use MM.DD.YYYY."
is declared inside class Meta, where Marshmallow silently ignores it, so the
effective order_date field is the one auto-generated from the not-null date
column: required with the default missing-data message, parsing the default
ISO format with the default invalid-date message.  customer_id is a required
integer field (include_fk).  Errors of the two fields are collected into one
mapping, as Marshmallow does. -/
def order_load (p : OrderPayload) :
    Except (List (String × List String)) (MDY × Nat) :=
  let dateRes : Except (List String) MDY :=
    match p.order_date with
    | none => Except.error [missingMsg]
    | some str =>
      match parseDateISO str with
      | none => Except.error ["Not a valid date."]
      | some d => Except.ok d
  let cidRes : Except (List String) Nat :=
    match p.customer_id with
    | none => Except.error [missingMsg]
    | some c => Except.ok c
  match dateRes, cidRes with
  | Except.ok d, Except.ok c => Except.ok (d, c)
  | Except.error e1, Except.ok _ => Except.error [("order_date", e1)]
  | Except.ok _, Except.error e2 => Except.error [("customer_id", e2)]
  | Except.error e1, Except.error e2 =>
      Except.error [("order_date", e1), ("customer_id", e2)]

/-- GET /customers (src/main.py lines 131-136): select all rows. -/
def get_customers (s : DBState) : Outcome × DBState :=
  (Outcome.resp ⟨200, Body.customerList s.customers⟩, s)

/-- GET /customers/id (src/main.py lines 139-147): select by primary key;
404 when absent. -/
def get_customer (s : DBState) (id : Nat) : Outcome × DBState :=
  match s.customers.find? (fun c => c.id == id) with
  | none => (Outcome.resp ⟨404, Body.err "Customer not found"⟩, s)
  | some c => (Outcome.resp ⟨200, Body.customer c⟩, s)

/-- POST /customers (src/main.py lines 150-169): load the schema (400 with
the error mapping on failure), then build the new row from the three keys of
the loaded record.  The address key is read unconditionally, so a payload
without address raises a missing-key error before any insert; the insert
itself commits, and a commit that violates the unique email constraint
raises an integrity error with the transaction rolled back. -/
def add_customer (s : DBState) (p : CustomerPayload) : Outcome × DBState :=
  match customer_load p with
  | Except.error errs => (Outcome.resp ⟨400, Body.fieldErrors errs⟩, s)
  | Except.ok (n, e, addr) =>
    match addr with
    | none => (Outcome.exn "KeyError: address", s)
    | some a =>
      if s.customers.any (fun c => c.email == e) then
        (Outcome.exn "IntegrityError: duplicate email", s)
      else
        let newC : Customer :=
          { id := s.next_customer_id, name := n, email := e, address := some a }
        (Outcome.resp ⟨201, Body.messageCustomer "Customer created successfully" newC⟩,
         { s with customers := s.customers ++ [newC],
                  next_customer_id := s.next_customer_id + 1 })

/-- PUT /customers/id (src/main.py lines 172-188): 404 when the row is
absent; otherwise load the schema onto the existing instance (400 with the
error mapping on failure, nothing committed), set the provided fields and
commit.  A commit that gives the row the email of another row violates the
unique constraint. -/
def update_customer (s : DBState) (id : Nat) (p : CustomerPayload) :
    Outcome × DBState :=
  match s.customers.find? (fun c => c.id == id) with
  | none => (Outcome.resp ⟨404, Body.err "Customer not found"⟩, s)
  | some c =>
    match customer_load p with
    | Except.error errs => (Outcome.resp ⟨400, Body.fieldErrors errs⟩, s)
    | Except.ok (n, e, addr) =>
      let c2 : Customer :=
        { c with name := n, email := e, address := addr.or c.address }
      if s.customers.any (fun c0 => c0.id != id && c0.email == e) then
        (Outcome.exn "IntegrityError: duplicate email", s)
      else
        (Outcome.resp ⟨200, Body.messageCustomer "Customer updated successfully" c2⟩,
         { s with customers := s.customers.map (fun c0 => if c0.id == id then c2 else c0) })

/-- DELETE /customers/id (src/main.py lines 191-200): 404 when the row is
absent; otherwise delete and commit.  There is no cascade rule, and the
orders.customer_id column is not-null, so deleting a customer that still
has orders violates the foreign key on flush and raises. -/
def delete_customer (s : DBState) (id : Nat) : Outcome × DBState :=
  match s.customers.find? (fun c => c.id == id) with
  | none => (Outcome.resp ⟨404, Body.err "Customer not found"⟩, s)
  | some _ =>
    if s.orders.any (fun o => o.customer_id == id) then
      (Outcome.exn "IntegrityError: orders still reference customer", s)
    else
      (Outcome.resp ⟨200, Body.message "Customer deleted successfully"⟩,
       { s with customers := s.customers.filter (fun c => c.id != id) })

/-- GET /products (src/main.py lines 205-210): select all rows. -/
def get_products (s : DBState) : Outcome × DBState :=
  (Outcome.resp ⟨200, Body.productList s.products⟩, s)

/-- GET /products/id (src/main.py lines 213-219): select by primary key;
404 when absent. -/
def get_product (s : DBState) (id : Nat) : Outcome × DBState :=
  match s.products.find? (fun pr => pr.id == id) with
  | none => (Outcome.resp ⟨404, Body.err "Product not found"⟩, s)
  | some pr => (Outcome.resp ⟨200, Body.product pr⟩, s)

/-- POST /products (src/main.py lines 222-240): load the schema (400 on
failure), insert the new row, commit.  Both schema fields are required, so
both keys of the loaded record are present. -/
def add_product (s : DBState) (p : ProductPayload) : Outcome × DBState :=
  match product_load p with
  | Except.error errs => (Outcome.resp ⟨400, Body.fieldErrors errs⟩, s)
  | Except.ok (nm, pr) =>
    let newP : Products := { id := s.next_product_id, product_name := nm, price := pr }
    (Outcome.resp ⟨201, Body.messageProduct "Product created successfully" newP⟩,
     { s with products := s.products ++ [newP],
              next_product_id := s.next_product_id + 1 })

/-- PUT /products/id (src/main.py lines 243-259): 404 when the row is
absent; otherwise load onto the existing instance (400 on failure), set the
fields and commit. -/
def update_product (s : DBState) (id : Nat) (p : ProductPayload) :
    Outcome × DBState :=
  match s.products.find? (fun pr => pr.id == id) with
  | none => (Outcome.resp ⟨404, Body.err "Product not found"⟩, s)
  | some pr =>
    match product_load p with
    | Except.error errs => (Outcome.resp ⟨400, Body.fieldErrors errs⟩, s)
    | Except.ok (nm, price) =>
      let p2 : Products := { pr with product_name := nm, price := price }
      (Outcome.resp ⟨200, Body.messageProduct "Product updated successfully" p2⟩,
       { s with products := s.products.map (fun p0 => if p0.id == id then p2 else p0) })

/-- DELETE /products/id (src/main.py lines 262-271): 404 when the row is
absent; otherwise delete and commit.  The many-to-many relationship with
secondary table makes the delete also remove the association rows of the
product. -/
def delete_product (s : DBState) (id : Nat) : Outcome × DBState :=
  match s.products.find? (fun pr => pr.id == id) with
  | none => (Outcome.resp ⟨404, Body.err "Product not found"⟩, s)
  | some _ =>
    (Outcome.resp ⟨200, Body.message "Product deleted successfully"⟩,
     { s with products := s.products.filter (fun pr => pr.id != id),
              order_products := s.order_products.filter (fun pair => pair.2 != id) })

/-- POST /orders (src/main.py lines 276-302): load the order schema (400
with the error mapping on failure), then fetch the referenced customer by
primary key; when it exists insert the new order and commit (201), otherwise
return 400 with the single error string, nothing inserted. -/
def add_order (s : DBState) (p : OrderPayload) : Outcome × DBState :=
  match order_load p with
  | Except.error errs => (Outcome.resp ⟨400, Body.fieldErrors errs⟩, s)
  | Except.ok (d, cid) =>
    match s.customers.find? (fun c => c.id == cid) with
    | some _ =>
      let newO : Orders := { id := s.next_order_id, order_date := d, customer_id := cid }
      (Outcome.resp ⟨201, Body.messageOrder "Order created successfully" newO⟩,
       { s with orders := s.orders ++ [newO], next_order_id := s.next_order_id + 1 })
    | none => (Outcome.resp ⟨400, Body.err "Customer not found"⟩, s)

/-- PUT /orders/order_id/add_product/product_id (src/main.py lines 305-318):
fetch both rows by primary key; when either is absent return 404 with the
single error string; when the product is already in the order return 400
with the single error string, nothing changed; otherwise append the pair to
the association table and commit (200). -/
def add_product_to_order (s : DBState) (order_id product_id : Nat) :
    Outcome × DBState :=
  match s.orders.find? (fun o => o.id == order_id),
        s.products.find? (fun pr => pr.id == product_id) with
  | some _, some _ =>
    if s.order_products.contains (order_id, product_id) then
      (Outcome.resp ⟨400, Body.err "Product already in order"⟩, s)
    else
      (Outcome.resp ⟨200, Body.message "Product added to order successfully"⟩,
       { s with order_products := s.order_products ++ [(order_id, product_id)] })
  | _, _ => (Outcome.resp ⟨404, Body.err "Order or Product not found"⟩, s)

/-- GET /orders/id (src/main.py lines 321-326): fetch by primary key; 404
when absent. -/
def get_order (s : DBState) (id : Nat) : Outcome × DBState :=
  match s.orders.find? (fun o => o.id == id) with
  | none => (Outcome.resp ⟨404, Body.err "Order not found"⟩, s)
  | some o => (Outcome.resp ⟨200, Body.order o⟩, s)

/-- GET /customers/customer_id/orders (src/main.py lines 329-336): 404 when
the customer is absent; otherwise the list of orders filtered by
customer_id. -/
def get_orders_for_customer (s : DBState) (customer_id : Nat) :
    Outcome × DBState :=
  match s.customers.find? (fun c => c.id == customer_id) with
  | none => (Outcome.resp ⟨404, Body.err "Customer not found"⟩, s)
  | some _ =>
    (Outcome.resp ⟨200,
       Body.orderList (s.orders.filter (fun o => o.customer_id == customer_id))⟩, s)

/-- GET /orders/order_id/products (src/main.py lines 339-345): 404 when the
order is absent; otherwise the products linked to the order through the
association table. -/
def get_products_in_order (s : DBState) (order_id : Nat) : Outcome × DBState :=
  match s.orders.find? (fun o => o.id == order_id) with
  | none => (Outcome.resp ⟨404, Body.err "Order not found"⟩, s)
  | some _ =>
    (Outcome.resp ⟨200,
       Body.productList (s.products.filter
         (fun pr => s.order_products.contains (order_id, pr.id)))⟩, s)

/-- True exactly when the outcome is a response the handler itself returned
with an error status 400 or 404. -/
def errorStatus (o : Outcome) : Bool :=
  match o with
  | Outcome.resp r => r.status == 400 || r.status == 404
  | Outcome.exn _ => false

/-- A small populated store used by concrete witnesses: one customer, one
product, one order, no associations yet. -/
def exampleState : DBState :=
  { customers := [⟨1, "Ann", "ann@x.com", some "1 Main St"⟩]
    products := [⟨1, "Widget", 10⟩]
    orders := [⟨1, ⟨1, 15, 2024⟩, 1⟩]
    order_products := []
    next_customer_id := 2, next_product_id := 2, next_order_id := 2 }

/-- C1: for an existing order and product already linked, add_product_to_order
returns 400 with the body error "Product already in order" and leaves the
store (in particular the association table) unchanged; and after a successful
add of a not-yet-linked pair, a second identical call returns that 400,
changes nothing, and the association table holds exactly one row for the
pair. -/
theorem C1_add_product_to_order_idempotent_by_rejection
    (s : DBState) (oid pid : Nat) (o : Orders) (pr : Products)
    (ho : s.orders.find? (fun x => x.id == oid) = some o)
    (hp : s.products.find? (fun x => x.id == pid) = some pr) :
    (s.order_products.contains (oid, pid) = true →
      add_product_to_order s oid pid =
        (Outcome.resp ⟨400, Body.err "Product already in order"⟩, s))
    ∧
    (s.order_products.contains (oid, pid) = false →
      (add_product_to_order s oid pid).1 =
        Outcome.resp ⟨200, Body.message "Product added to order successfully"⟩ ∧
      (add_product_to_order (add_product_to_order s oid pid).2 oid pid).1 =
        Outcome.resp ⟨400, Body.err "Product already in order"⟩ ∧
      (add_product_to_order (add_product_to_order s oid pid).2 oid pid).2 =
        (add_product_to_order s oid pid).2 ∧
      ((add_product_to_order (add_product_to_order s oid pid).2 oid pid).2.order_products.count
        (oid, pid)) = 1) := by
  constructor
  · intro hmem
    simp only [List.contains, List.elem_eq_mem, decide_eq_true_eq] at hmem
    unfold add_product_to_order
    rw [ho, hp]
    simp [hmem]
  · intro hmem
    simp only [List.contains, List.elem_eq_mem, decide_eq_false_iff_not] at hmem
    have h1 : add_product_to_order s oid pid =
        (Outcome.resp ⟨200, Body.message "Product added to order successfully"⟩,
         { s with order_products := s.order_products ++ [(oid, pid)] }) := by
      unfold add_product_to_order
      rw [ho, hp]
      simp [hmem]
    have h2 : add_product_to_order
        ({ s with order_products := s.order_products ++ [(oid, pid)] }) oid pid =
        (Outcome.resp ⟨400, Body.err "Product already in order"⟩,
         { s with order_products := s.order_products ++ [(oid, pid)] }) := by
      unfold add_product_to_order
      rw [show ({ s with order_products := s.order_products ++ [(oid, pid)]} :
            DBState).orders = s.orders from rfl,
          show ({ s with order_products := s.order_products ++ [(oid, pid)]} :
            DBState).products = s.products from rfl, ho, hp]
      simp
    rw [h1]
    simp only [h2]
    refine ⟨trivial, trivial, trivial, ?_⟩
    simp [List.count_append, List.count_eq_zero.mpr hmem]

/-- C1 witness: in the concrete example store the pair (1, 1) is not yet
linked; adding it succeeds with 200, re-adding it fails with 400 leaving the
store unchanged, and exactly one association row for (1, 1) remains. -/
theorem C1_witness :
    exampleState.order_products.contains (1, 1) = false ∧
    ((add_product_to_order exampleState 1 1).1 =
        Outcome.resp ⟨200, Body.message "Product added to order successfully"⟩ ∧
      (add_product_to_order (add_product_to_order exampleState 1 1).2 1 1).1 =
        Outcome.resp ⟨400, Body.err "Product already in order"⟩ ∧
      (add_product_to_order (add_product_to_order exampleState 1 1).2 1 1).2 =
        (add_product_to_order exampleState 1 1).2 ∧
      ((add_product_to_order (add_product_to_order exampleState 1 1).2 1 1).2.order_products.count
        (1, 1)) = 1) :=
  ⟨by decide,
   (C1_add_product_to_order_idempotent_by_rejection exampleState 1 1
      ⟨1, ⟨1, 15, 2024⟩, 1⟩ ⟨1, "Widget", 10⟩ (by decide) (by decide)).2 (by decide)⟩

/-- C6: add_product_to_order returns 404 with the body error
"Order or Product not found" and the store unchanged whenever the order
lookup or the product lookup (or both) comes back empty. -/
theorem C6_add_product_to_order_missing_row (s : DBState) (oid pid : Nat)
    (h : s.orders.find? (fun o => o.id == oid) = none ∨
         s.products.find? (fun pr => pr.id == pid) = none) :
    add_product_to_order s oid pid =
      (Outcome.resp ⟨404, Body.err "Order or Product not found"⟩, s) := by
  unfold add_product_to_order
  rcases h with h | h
  · rw [h]
  · rw [h]
    cases s.orders.find? (fun o => o.id == oid) <;> rfl

/-- C6 witness: on the empty store, linking order 1 and product 1 is
rejected 404 with the not-found error. -/
theorem C6_witness :
    emptyState.orders.find? (fun o => o.id == 1) = none ∧
    add_product_to_order emptyState 1 1 =
      (Outcome.resp ⟨404, Body.err "Order or Product not found"⟩, emptyState) :=
  ⟨rfl, C6_add_product_to_order_missing_row emptyState 1 1 (Or.inl rfl)⟩

/-- C7: for an id that is no primary key of the respective table, every
defined ReadOne, Update and Delete handler (all three for Customer and
Product, ReadOne for Order, the only one of the three the service defines
for orders) returns 404 with a non-empty single-error body and the store
unchanged. -/
theorem C7_not_found_on_absent_id (s : DBState) (i : Nat)
    (pc : CustomerPayload) (pp : ProductPayload) :
    (s.customers.find? (fun c => c.id == i) = none →
      (∃ e, get_customer s i = (Outcome.resp ⟨404, Body.err e⟩, s) ∧ e ≠ "") ∧
      (∃ e, update_customer s i pc = (Outcome.resp ⟨404, Body.err e⟩, s) ∧ e ≠ "") ∧
      (∃ e, delete_customer s i = (Outcome.resp ⟨404, Body.err e⟩, s) ∧ e ≠ "")) ∧
    (s.products.find? (fun pr => pr.id == i) = none →
      (∃ e, get_product s i = (Outcome.resp ⟨404, Body.err e⟩, s) ∧ e ≠ "") ∧
      (∃ e, update_product s i pp = (Outcome.resp ⟨404, Body.err e⟩, s) ∧ e ≠ "") ∧
      (∃ e, delete_product s i = (Outcome.resp ⟨404, Body.err e⟩, s) ∧ e ≠ "")) ∧
    (s.orders.find? (fun o => o.id == i) = none →
      (∃ e, get_order s i = (Outcome.resp ⟨404, Body.err e⟩, s) ∧ e ≠ "")) := by
  refine ⟨fun h => ⟨?_, ?_, ?_⟩, fun h => ⟨?_, ?_, ?_⟩, fun h => ?_⟩
  · exact ⟨"Customer not found", by simp [get_customer, h], by simp⟩
  · exact ⟨"Customer not found", by simp [update_customer, h], by simp⟩
  · exact ⟨"Customer not found", by simp [delete_customer, h], by simp⟩
  · exact ⟨"Product not found", by simp [get_product, h], by simp⟩
  · exact ⟨"Product not found", by simp [update_product, h], by simp⟩
  · exact ⟨"Product not found", by simp [delete_product, h], by simp⟩
  · exact ⟨"Order not found", by simp [get_order, h], by simp⟩

/-- C7 witness: on the empty store with id 1, all seven defined
ReadOne-Update-Delete handlers answer 404 with a non-empty error body. -/
theorem C7_witness :
    emptyState.customers.find? (fun c => c.id == 1) = none ∧
    emptyState.products.find? (fun pr => pr.id == 1) = none ∧
    emptyState.orders.find? (fun o => o.id == 1) = none ∧
    ((∃ e, get_customer emptyState 1 = (Outcome.resp ⟨404, Body.err e⟩, emptyState) ∧ e ≠ "") ∧
      (∃ e, update_customer emptyState 1 ⟨none, none, none⟩ =
        (Outcome.resp ⟨404, Body.err e⟩, emptyState) ∧ e ≠ "") ∧
      (∃ e, delete_customer emptyState 1 = (Outcome.resp ⟨404, Body.err e⟩, emptyState) ∧ e ≠ "")) ∧
    ((∃ e, get_product emptyState 1 = (Outcome.resp ⟨404, Body.err e⟩, emptyState) ∧ e ≠ "") ∧
      (∃ e, update_product emptyState 1 ⟨none, none⟩ =
        (Outcome.resp ⟨404, Body.err e⟩, emptyState) ∧ e ≠ "") ∧
      (∃ e, delete_product emptyState 1 = (Outcome.resp ⟨404, Body.err e⟩, emptyState) ∧ e ≠ "")) ∧
    (∃ e, get_order emptyState 1 = (Outcome.resp ⟨404, Body.err e⟩, emptyState) ∧ e ≠ "") :=
  ⟨rfl, rfl, rfl,
   (C7_not_found_on_absent_id emptyState 1 ⟨none, none, none⟩ ⟨none, none⟩).1 rfl,
   (C7_not_found_on_absent_id emptyState 1 ⟨none, none, none⟩ ⟨none, none⟩).2.1 rfl,
   (C7_not_found_on_absent_id emptyState 1 ⟨none, none, none⟩ ⟨none, none⟩).2.2 rfl⟩

/-- C8: when the customer exists, get_orders_for_customer returns 200 with
the orders whose customer_id is the requested id — exactly those: a list
that an order belongs to iff it is a stored order with that customer_id —
and the store unchanged; when the customer does not exist it returns 404. -/
theorem C8_orders_for_customer_exact (s : DBState) (cid : Nat) :
    (∀ c, s.customers.find? (fun x => x.id == cid) = some c →
      get_orders_for_customer s cid =
        (Outcome.resp ⟨200,
          Body.orderList (s.orders.filter (fun o => o.customer_id == cid))⟩, s) ∧
      ∀ o : Orders, o ∈ s.orders.filter (fun o => o.customer_id == cid) ↔
        (o ∈ s.orders ∧ o.customer_id = cid)) ∧
    (s.customers.find? (fun x => x.id == cid) = none →
      get_orders_for_customer s cid =
        (Outcome.resp ⟨404, Body.err "Customer not found"⟩, s)) := by
  constructor
  · intro c hc
    refine ⟨by simp [get_orders_for_customer, hc], fun o => ?_⟩
    simp [List.mem_filter]
  · intro h
    simp [get_orders_for_customer, h]

/-- A store used by the list witnesses: two customers, three orders, two of
them for customer 1. -/
def listState : DBState :=
  { customers := [⟨1, "Ann", "ann@x.com", some "1 Main St"⟩, ⟨2, "Bob", "bob@x.com", none⟩]
    products := []
    orders := [⟨1, ⟨1, 15, 2024⟩, 1⟩, ⟨2, ⟨2, 1, 2024⟩, 2⟩, ⟨3, ⟨3, 2, 2024⟩, 1⟩]
    order_products := []
    next_customer_id := 3, next_product_id := 1, next_order_id := 4 }

/-- C8 witness: customer 1 of the list store exists and the handler returns
exactly the two orders with customer_id 1, with status 200. -/
theorem C8_witness :
    listState.customers.find? (fun x => x.id == 1) =
      some ⟨1, "Ann", "ann@x.com", some "1 Main St"⟩ ∧
    get_orders_for_customer listState 1 =
      (Outcome.resp ⟨200,
        Body.orderList [⟨1, ⟨1, 15, 2024⟩, 1⟩, ⟨3, ⟨3, 2, 2024⟩, 1⟩]⟩, listState) :=
  ⟨by decide, by
    have h := ((C8_orders_for_customer_exact listState 1).1
      ⟨1, "Ann", "ann@x.com", some "1 Main St"⟩ (by decide)).1
    exact h.trans (by decide)⟩

/-- C9: the four kinds of GET handlers (ReadMany and ReadOne of each
resource, the customer-scoped order list and the order-scoped product list)
return the store they were given: no read-only operation mutates any
table. -/
theorem C9_get_handlers_preserve_store (s : DBState) (i cid oid : Nat) :
    (get_customers s).2 = s ∧ (get_customer s i).2 = s ∧
    (get_products s).2 = s ∧ (get_product s i).2 = s ∧
    (get_order s oid).2 = s ∧
    (get_orders_for_customer s cid).2 = s ∧
    (get_products_in_order s oid).2 = s := by
  refine ⟨rfl, ?_, rfl, ?_, ?_, ?_, ?_⟩
  · unfold get_customer
    cases s.customers.find? (fun c => c.id == i) <;> rfl
  · unfold get_product
    cases s.products.find? (fun pr => pr.id == i) <;> rfl
  · unfold get_order
    cases s.orders.find? (fun o => o.id == oid) <;> rfl
  · unfold get_orders_for_customer
    cases s.customers.find? (fun c => c.id == cid) <;> rfl
  · unfold get_products_in_order
    cases s.orders.find? (fun o => o.id == oid) <;> rfl

/-- C5: evaluation of the customer Create handler at a valid payload that
omits the optional address: the handler reads the absent address key of the
loaded record unconditionally, so the request dies with an uncaught
missing-key error (a 500 crash) and no row is created, instead of the 201
creation the claim describes. -/
theorem C5_create_without_address_crashes :
    add_customer emptyState ⟨some "Ann", some "ann@x.com", none⟩ =
      (Outcome.exn "KeyError: address", emptyState) := by decide

/-- C10: every mutating handler that answers with an error status 400 or
404 returns the store unchanged: each error branch returns before any row
is added, modified or deleted. -/
theorem C10_error_responses_preserve_store (s : DBState) (i oid pid : Nat)
    (pc : CustomerPayload) (pp : ProductPayload) (po : OrderPayload) :
    (errorStatus (add_customer s pc).1 = true → (add_customer s pc).2 = s) ∧
    (errorStatus (update_customer s i pc).1 = true → (update_customer s i pc).2 = s) ∧
    (errorStatus (delete_customer s i).1 = true → (delete_customer s i).2 = s) ∧
    (errorStatus (add_product s pp).1 = true → (add_product s pp).2 = s) ∧
    (errorStatus (update_product s i pp).1 = true → (update_product s i pp).2 = s) ∧
    (errorStatus (delete_product s i).1 = true → (delete_product s i).2 = s) ∧
    (errorStatus (add_order s po).1 = true → (add_order s po).2 = s) ∧
    (errorStatus (add_product_to_order s oid pid).1 = true →
      (add_product_to_order s oid pid).2 = s) := by
  refine ⟨?_, ?_, ?_, ?_, ?_, ?_, ?_, ?_⟩
  · unfold add_customer customer_load
    repeat' split
    all_goals simp [errorStatus]
  · unfold update_customer customer_load
    repeat' split
    all_goals simp [errorStatus]
  · unfold delete_customer
    repeat' split
    all_goals simp [errorStatus]
  · unfold add_product product_load
    repeat' split
    all_goals simp [errorStatus]
  · unfold update_product product_load
    repeat' split
    all_goals simp [errorStatus]
  · unfold delete_product
    repeat' split
    all_goals simp [errorStatus]
  · unfold add_order order_load
    dsimp only
    repeat' split
    all_goals simp [errorStatus]
  · unfold add_product_to_order
    repeat' split
    all_goals simp [errorStatus]

/-- C10 witness: on the empty store, one failing request per mutating
handler — a 400 or 404 each time — leaves the store exactly empty. -/
theorem C10_witness :
    (errorStatus (add_customer emptyState ⟨none, none, none⟩).1 = true ∧
      (add_customer emptyState ⟨none, none, none⟩).2 = emptyState) ∧
    (errorStatus (update_customer emptyState 1 ⟨none, none, none⟩).1 = true ∧
      (update_customer emptyState 1 ⟨none, none, none⟩).2 = emptyState) ∧
    (errorStatus (delete_customer emptyState 1).1 = true ∧
      (delete_customer emptyState 1).2 = emptyState) ∧
    (errorStatus (add_product emptyState ⟨none, none⟩).1 = true ∧
      (add_product emptyState ⟨none, none⟩).2 = emptyState) ∧
    (errorStatus (update_product emptyState 1 ⟨none, none⟩).1 = true ∧
      (update_product emptyState 1 ⟨none, none⟩).2 = emptyState) ∧
    (errorStatus (delete_product emptyState 1).1 = true ∧
      (delete_product emptyState 1).2 = emptyState) ∧
    (errorStatus (add_order emptyState ⟨none, none⟩).1 = true ∧
      (add_order emptyState ⟨none, none⟩).2 = emptyState) ∧
    (errorStatus (add_product_to_order emptyState 1 1).1 = true ∧
      (add_product_to_order emptyState 1 1).2 = emptyState) := by
  have h := C10_error_responses_preserve_store emptyState 1 1 1
    ⟨none, none, none⟩ ⟨none, none⟩ ⟨none, none⟩
  exact ⟨⟨by decide, h.1 (by decide)⟩,
         ⟨by decide, h.2.1 (by decide)⟩,
         ⟨by decide, h.2.2.1 (by decide)⟩,
         ⟨by decide, h.2.2.2.1 (by decide)⟩,
         ⟨by decide, h.2.2.2.2.1 (by decide)⟩,
         ⟨by decide, h.2.2.2.2.2.1 (by decide)⟩,
         ⟨by decide, h.2.2.2.2.2.2.1 (by decide)⟩,
         ⟨by decide, h.2.2.2.2.2.2.2 (by decide)⟩⟩
